import Mathlib

/-!
Verification of the fingerprint-erc8004 repository core: the byte scalar
utilities (src/lib/hash.ts), the parameter mapper (src/lib/parameterMapper.ts),
the vector-grid renderer cell logic (src/components/FingerprintSquares.tsx)
and the fingerprint hook (src/hooks/useFingerprint.ts / App.tsx).

JS numbers are modelled as exact rationals (ℚ) where the code is purely
arithmetic, and as reals (ℝ) where it involves `Math.sin` / `Math.PI`.
The JS value `undefined` (an out-of-range `Uint8Array` read) and the `NaN`
values it produces by arithmetic propagation are modelled by `Option`:
`none` stands for undefined/NaN, and every mapper field is an `Option`
because `mapHashToConfig` performs no validation of its input length.
-/

namespace Fingerprint

/-- Model of `byteToFloat` (src/lib/hash.ts:29-31):
`min + (byte / 255) * (max - min)`. -/
def byteToFloat (b : ℕ) (mn mx : ℚ) : ℚ :=
  mn + ((b : ℚ) / 255) * (mx - mn)

/-- Real-valued reading of `byteToFloat`, for the one call site whose bounds
involve `Math.PI` (the rotation axis angle in the parameter mapper). -/
noncomputable def byteToFloatR (b : ℕ) (mn mx : ℝ) : ℝ :=
  mn + ((b : ℝ) / 255) * (mx - mn)

/-- Model of `byteToIndex` (src/lib/hash.ts:36-38):
`Math.floor((byte / 256) * count)`. -/
def byteToIndex (b : ℕ) (count : ℕ) : ℤ :=
  ⌊((b : ℚ) / 256) * (count : ℚ)⌋

/-- JS remainder `a % b` for a nonnegative dividend and positive divisor
(the only case the mapper uses, in `(primaryHue + offset) % 360`):
`a - b * Math.floor(a / b)` coincides with the JS truncated remainder there. -/
def jsMod (a b : ℚ) : ℚ :=
  a - b * ⌊a / b⌋

/-- The eight geometry classes (src/lib/types.ts). -/
inductive GeometryClass where
  | sphere | torus | icosahedron | octahedron
  | torusKnot | dodecahedron | tetrahedron | cone
  deriving DecidableEq, Repr

/-- The eight pattern types (src/lib/types.ts). -/
inductive PatternType where
  | voronoi | noise | rings | grid
  | hexagonal | spiral | stripes | dots
  deriving DecidableEq, Repr

/-- The four border styles (src/lib/types.ts). -/
inductive BorderStyle where
  | none | thin | thick | glow
  deriving DecidableEq, Repr

/-- `GEOMETRY_CLASSES` array of the parameter mapper. -/
def GEOMETRY_CLASSES : List GeometryClass :=
  [.sphere, .torus, .icosahedron, .octahedron,
   .torusKnot, .dodecahedron, .tetrahedron, .cone]

/-- `PATTERN_TYPES` array of the parameter mapper. -/
def PATTERN_TYPES : List PatternType :=
  [.voronoi, .noise, .rings, .grid,
   .hexagonal, .spiral, .stripes, .dots]

/-- `BORDER_STYLES` array of the parameter mapper. -/
def BORDER_STYLES : List BorderStyle :=
  [.none, .thin, .thick, .glow]

/-- The record returned by `mapHashToConfig`, following the `VisualConfig`
interface (src/lib/types.ts).  Every numeric field is an `Option` because a
too-short digest makes the corresponding JS value `NaN`/`undefined` (modelled
`none`).  `reputationScore` is declared by the interface as a required integer
in [0,100], but the mapper's return object literal
(src/lib/parameterMapper.ts:102-123) omits it, so reading it yields
`undefined`: the mapper always produces `none` here. -/
structure VisualConfig where
  primaryHue : Option ℚ
  primarySaturation : Option ℚ
  primaryLightness : Option ℚ
  secondaryHue : Option ℚ
  secondaryLightness : Option ℚ
  geometryClass : Option GeometryClass
  patternType : Option PatternType
  patternFrequency : Option ℤ
  patternDensity : Option ℚ
  borderStyle : Option BorderStyle
  borderWidth : Option ℚ
  rotationSpeed : Option ℚ
  rotationAxis : Option (ℝ × ℝ × ℝ)
  particleDensity : Option ℚ
  displacementAmplitude : Option ℚ
  displacementFrequency : Option ℤ
  pulseRate : Option ℚ
  shimmerIntensity : Option ℚ
  colorShift : Option ℚ
  breatheScale : Option ℚ
  reputationScore : Option ℤ

/-- Model of `mapHashToConfig` (src/lib/parameterMapper.ts:50-124).  The
digest is a byte list; `bytes[i]` is `d.get? i` (JS gives `undefined` out of
range, and arithmetic on it gives `NaN`, both modelled by `none`).  The
source performs no length check and never throws: it is a total function.
Notable JS details kept: `bytes[15] < 128` is false when `bytes[15]` is
`undefined`, so the rotation sign alone defaults to `-1`; an array read at a
`NaN` index yields `undefined`.  `Math.round x` is `⌊x + 1/2⌋ = round x`. -/
noncomputable def mapHashToConfig (d : List ℕ) : VisualConfig where
  primaryHue := (d.get? 0).map (fun b => byteToFloat b 0 360)
  primarySaturation := (d.get? 1).map (fun b => byteToFloat b 0.5 1.0)
  primaryLightness := (d.get? 2).map (fun b => byteToFloat b 0.35 0.65)
  secondaryHue :=
    match d.get? 0, d.get? 3 with
    | some b0, some b3 =>
        some (jsMod (byteToFloat b0 0 360 + byteToFloat b3 60 300) 360)
    | _, _ => none
  secondaryLightness := (d.get? 4).map (fun b => byteToFloat b 0.3 0.7)
  geometryClass :=
    (d.get? 6).bind (fun b =>
      GEOMETRY_CLASSES.get? (byteToIndex b GEOMETRY_CLASSES.length).toNat)
  patternType :=
    (d.get? 8).bind (fun b =>
      PATTERN_TYPES.get? (byteToIndex b PATTERN_TYPES.length).toNat)
  patternFrequency := (d.get? 10).map (fun b => round (byteToFloat b 1 16))
  patternDensity := (d.get? 11).map (fun b => byteToFloat b 0.1 1.0)
  borderStyle :=
    (d.get? 12).bind (fun b =>
      BORDER_STYLES.get? (byteToIndex b BORDER_STYLES.length).toNat)
  borderWidth := (d.get? 13).map (fun b => byteToFloat b 0.01 0.08)
  rotationSpeed :=
    (d.get? 14).map (fun m =>
      (match d.get? 15 with
       | some s => if s < 128 then (1 : ℚ) else -1
       | none => -1) * byteToFloat m 0.1 0.8)
  rotationAxis :=
    (d.get? 15).map (fun b =>
      (Real.sin (byteToFloatR b 0 (Real.pi * 2)),
       Real.cos (byteToFloatR b 0 (Real.pi * 2)),
       Real.sin (byteToFloatR b 0 (Real.pi * 2) * 0.5)))
  particleDensity := (d.get? 16).map (fun b => byteToFloat b 0 1)
  displacementAmplitude := (d.get? 18).map (fun b => byteToFloat b 0 0.4)
  displacementFrequency := (d.get? 19).map (fun b => round (byteToFloat b 1 8))
  pulseRate := (d.get? 20).map (fun b => byteToFloat b 0.2 2.0)
  shimmerIntensity := (d.get? 21).map (fun b => byteToFloat b 0 0.6)
  colorShift := (d.get? 22).map (fun b => byteToFloat b 0 0.3)
  breatheScale := (d.get? 23).map (fun b => byteToFloat b 0 0.15)
  reputationScore := none

/-- Model of `fract` (src/components/FingerprintSquares.tsx:97-99):
`x - Math.floor(x)`. -/
noncomputable def fract (x : ℝ) : ℝ :=
  x - ⌊x⌋

/-- Model of `smoothstep` (src/components/FingerprintSquares.tsx:101-104). -/
noncomputable def smoothstep (a b x : ℝ) : ℝ :=
  let t := max 0 (min 1 ((x - a) / (b - a)))
  t * t * (3 - 2 * t)

/-- Model of `cellHash` (src/components/FingerprintSquares.tsx:107-111),
the port of the GLSL coordinate hash:
`fract(sin(qx*211.7 + qy*391.1) * 98765.4321)` with
`qx = cx + seed*0.31 + 7.3` and `qy = cy + seed2*0.47 + 11.9`. -/
noncomputable def cellHash (cx cy seed seed2 : ℝ) : ℝ :=
  fract (Real.sin ((cx + seed * 0.31 + 7.3) * 211.7 +
    (cy + seed2 * 0.47 + 11.9) * 391.1) * 98765.4321)

/-- Model of `cellPattern` (src/components/FingerprintSquares.tsx:134-145):
concentric rings with a radial depth gradient and a smoothed central hub,
on the 9×9 grid (`GRID = 9`). -/
noncomputable def cellPattern (cx cy patternFrequency : ℝ) : ℝ :=
  let nx := (cx + 0.5) / 9 * 2 - 1
  let ny := (cy + 0.5) / 9 * 2 - 1
  let r := Real.sqrt (nx * nx + ny * ny)
  let wave := Real.sin (r * Real.pi * (2 + patternFrequency * 0.3))
  let rings := (wave + 1) * 0.5
  let valley := 1 - rings
  let radialBias := 1 - smoothstep 0.1 0.85 r
  let depth := valley * radialBias * 0.3
  let hub := 1 - smoothstep 0.12 0.22 r
  max (min 1 (rings + depth)) hub

/-- What the main-grid loop of `FingerprintSquares`
(src/components/FingerprintSquares.tsx:179-258) emits for one cell:
nothing inside the top-left corner region, a hue-filled accent rect
(with its opacity and its shimmer animation delay, in seconds before the
CSS `toFixed(2)` formatting), or a pattern-and-grain grayscale rect
(carrying its fill value `fillVal`). -/
inductive CellRender where
  | skip
  | accent (opacity delay : ℝ)
  | pattern (fillVal : ℝ)

/-- Whether a cell render is a bright accent cell. -/
def CellRender.isAccent : CellRender → Bool
  | .accent _ _ => true
  | _ => false

/-- Model of the per-cell decision of the main 9×9 grid loop
(src/components/FingerprintSquares.tsx:179-258).  `cx`/`cy` are the cell
indices, `s1`/`s2` the seeds the component derives from the configuration,
`pf` the pattern frequency.  The corner region (`cx < 3 ∧ cy < 3`) is
skipped; the very center cell (`cx = MINI_CENTER + 1 = 4`, likewise `cy`)
is always a bright accent with opacity 0.93; otherwise the cell is an
accent exactly when `cellHash cx cy s1 s2 > 0.95`, with a second hash call
at offset `(+43.1, +67.9)` driving opacity and a third at `(+89.7, +71.3)`
driving the animation delay. -/
noncomputable def mainCellRender (cx cy : ℕ) (s1 s2 pf : ℝ) : CellRender :=
  if cx < 3 ∧ cy < 3 then .skip
  else if cx = 4 ∧ cy = 4 then
    .accent 0.93 (cellHash ((cx : ℝ) + 89.7) ((cy : ℝ) + 71.3) s1 s2 * 2)
  else if cellHash cx cy s1 s2 > 0.95 then
    .accent (0.35 + cellHash ((cx : ℝ) + 43.1) ((cy : ℝ) + 67.9) s1 s2 * 0.65)
      (cellHash ((cx : ℝ) + 89.7) ((cy : ℝ) + 71.3) s1 s2 * 2)
  else
    .pattern (min 1 (cellPattern cx cy pf * 0.65 +
      cellHash ((cx : ℝ) + 17.3) ((cy : ℝ) + 23.1) s1 s2 * 0.45))

/-- Model of JS `String.prototype.trim`: strip leading and trailing
whitespace characters. -/
def jsTrim (s : String) : String :=
  String.mk
    (List.reverse (List.dropWhile Char.isWhitespace
      (List.reverse (List.dropWhile Char.isWhitespace s.data))))

/-- Model of the settled state of `useFingerprint` (src/App.tsx:281-299 and
src/hooks/useFingerprint.ts): a whitespace-only or empty input
(`!input.trim()`) commits `null`; any other input commits
`mapHashToConfig (digest input)` once the digest resolves.  The SHA-256
digest primitive is the external collaborator, passed as a parameter. -/
noncomputable def useFingerprintResult (digest : String → List ℕ)
    (input : String) : Option VisualConfig :=
  if jsTrim input = "" then none
  else some (mapHashToConfig (digest input))

/-- An event in the life of the `useFingerprint` hook: `start i` is the
effect run for the `i`-th input (it creates a fresh `cancelled = false`
closure, and React has just run the previous closure's cleanup, setting that
closure's `cancelled` to `true`); `complete i` is the resolution of the
digest promise started by run `i`. -/
inductive FPEvent where
  | start (epoch : ℕ)
  | complete (epoch : ℕ)
  deriving DecidableEq, Repr

/-- Whether an event is an effect start. -/
def FPEvent.isStart : FPEvent → Bool
  | .start _ => true
  | .complete _ => false

/-- State of the hook: which effect run is currently mounted (its closure
has `cancelled = false`; all earlier closures have `cancelled = true`), and
the committed configuration. -/
structure HookState (α : Type) where
  latest : Option ℕ
  config : Option α

/-- One step of the hook's event semantics (src/App.tsx:284-296):
a start replaces the mounted closure; a completion runs
`if (!cancelled) setConfig(...)`, i.e. it commits its result only if its
own run is still the mounted one. -/
def hookStep {α : Type} (r : ℕ → α) (st : HookState α) : FPEvent → HookState α
  | .start i => { latest := some i, config := st.config }
  | .complete i =>
      if st.latest = some i then { latest := st.latest, config := some (r i) }
      else st

/-- Run a whole event trace from the initial hook state (no effect mounted,
no configuration committed). -/
def runTrace {α : Type} (r : ℕ → α) (tr : List FPEvent) : HookState α :=
  tr.foldl (hookStep r) ⟨none, none⟩

/-! Helper lemmas shared by the claim theorems. -/

lemma byteToFloat_mem_Icc {b : ℕ} (hb : b ≤ 255) {mn mx : ℚ} (h : mn ≤ mx) :
    mn ≤ byteToFloat b mn mx ∧ byteToFloat b mn mx ≤ mx := by
  have h1 : (0 : ℚ) ≤ (b : ℚ) / 255 := by positivity
  have h2 : (b : ℚ) / 255 ≤ 1 := by
    rw [div_le_one (by norm_num)]
    exact_mod_cast hb.trans (by norm_num)
  rw [byteToFloat]
  constructor <;> nlinarith

lemma byteToIndex_nonneg (b count : ℕ) : 0 ≤ byteToIndex b count := by
  rw [byteToIndex]
  exact Int.floor_nonneg.mpr (by positivity)

lemma byteToIndex_lt {b : ℕ} (count : ℕ) (hb : b ≤ 255) (hc : 1 ≤ count) :
    byteToIndex b count < (count : ℤ) := by
  rw [byteToIndex]
  rw [Int.floor_lt]
  have hbq : (b : ℚ) ≤ 255 := by exact_mod_cast hb
  have hcq : (1 : ℚ) ≤ (count : ℚ) := by exact_mod_cast hc
  push_cast
  nlinarith

lemma jsMod_eq_self {a b : ℚ} (h0 : 0 ≤ a) (hab : a < b) : jsMod a b = a := by
  have hb : 0 < b := lt_of_le_of_lt h0 hab
  have : ⌊a / b⌋ = 0 := by
    rw [Int.floor_eq_zero_iff]
    constructor
    · exact div_nonneg h0 hb.le
    · rw [div_lt_one hb]; exact hab
  rw [jsMod, this]
  ring

lemma fract_eq_int_fract (x : ℝ) : fract x = Int.fract x := rfl

/-! Claim theorems. -/

/-- Claim C3: for every byte in [0,255] and every count ≥ 1, `byteToIndex` equals
`⌊(byte/256)·count⌋` and lies in [0, count−1]; `byteToIndex 0 8 = 0` and
`byteToIndex 255 8 = 7`.  The top-value identity
`byteToIndex 255 count = count − 1` holds exactly for count ≤ 256 (the
amended range; see the counterexample at count = 257). -/
theorem byteToIndex_contract (b count : ℕ) (hb : b ≤ 255) (hc : 1 ≤ count) :
    byteToIndex b count = ⌊((b : ℚ) / 256) * (count : ℚ)⌋ ∧
    0 ≤ byteToIndex b count ∧ byteToIndex b count ≤ (count : ℤ) - 1 ∧
    (count ≤ 256 → byteToIndex 255 count = (count : ℤ) - 1) ∧
    byteToIndex 0 8 = 0 ∧ byteToIndex 255 8 = 7 := by
  refine ⟨rfl, byteToIndex_nonneg b count, ?_, ?_,
    by rw [byteToIndex, Int.floor_eq_iff]; norm_num,
    by rw [byteToIndex, Int.floor_eq_iff]; norm_num⟩
  · have := byteToIndex_lt count hb hc
    omega
  · intro h256
    have hcq : (1 : ℚ) ≤ (count : ℚ) := by exact_mod_cast hc
    have hcq2 : (count : ℚ) ≤ 256 := by exact_mod_cast h256
    rw [byteToIndex, Int.floor_eq_iff]
    push_cast
    constructor <;> nlinarith

/-- Claim C3 witness: `byteToIndex 255 8 = 7` via the contract theorem at
byte 255, count 8. -/
theorem byteToIndex_contract_witness :
    byteToIndex 255 8 = (8 : ℤ) - 1 :=
  (byteToIndex_contract 255 8 (by norm_num) (by norm_num)).2.2.2.1 (by norm_num)

/-- Claim C3 counterexample: at count = 257 the top byte does not map to
count − 1: `byteToIndex 255 257 = 255 ≠ 256`, refuting the claim's
"for every count ≥ 1 ... byteToIndex(255, count) returns count−1 exactly". -/
theorem byteToIndex_top_byte_fails_at_257 :
    byteToIndex 255 257 = 255 ∧ (255 : ℤ) ≠ 257 - 1 := by
  constructor
  · rw [byteToIndex, Int.floor_eq_iff]
    norm_num
  · decide

/-- Claim C6: `cellHash` equals the documented sine-scramble formula, its output
lies in [0, 1), and two calls with identical arguments are exactly equal
(it is a pure function of its four real arguments). -/
theorem cellHash_contract (x y s1 s2 : ℝ) :
    cellHash x y s1 s2 =
      fract (Real.sin ((x + s1 * 0.31 + 7.3) * 211.7 +
        (y + s2 * 0.47 + 11.9) * 391.1) * 98765.4321) ∧
    0 ≤ cellHash x y s1 s2 ∧ cellHash x y s1 s2 < 1 ∧
    cellHash x y s1 s2 = cellHash x y s1 s2 := by
  refine ⟨rfl, ?_, ?_, rfl⟩
  · rw [cellHash, fract_eq_int_fract]
    exact Int.fract_nonneg _
  · rw [cellHash, fract_eq_int_fract]
    exact Int.fract_lt_one _

lemma get?_isSome_of_lt {α : Type} (l : List α) {n : ℕ} (h : n < l.length) :
    (l.get? n).isSome = true := by
  rw [List.get?_eq_get h]
  rfl

lemma get?_some_of_lt (d : List ℕ) (hb : ∀ b ∈ d, b < 256) {i : ℕ}
    (hi : i < d.length) : ∃ b, d.get? i = some b ∧ b ≤ 255 := by
  refine ⟨d.get ⟨i, hi⟩, List.get?_eq_get hi, ?_⟩
  have := hb _ (d.get_mem i hi)
  omega

/-- Claim C1 counterexample: on the empty (0-byte) digest — fewer than 32 bytes —
`mapHashToConfig` raises no error and still returns a complete configuration
object: every mapped field is the NaN/undefined value (`none`), and
`reputationScore` is absent as always.  No `InvalidDigestLength` failure
exists anywhere in the mapper, refuting "fails with InvalidDigestLength
... surfacing the error to the caller and producing no partial
configuration". -/
theorem mapHashToConfig_empty_returns_config :
    mapHashToConfig [] =
      ⟨none, none, none, none, none, none, none, none, none, none, none,
       none, none, none, none, none, none, none, none, none, none⟩ := rfl

/-- Claim C1 amended: `mapHashToConfig` contains no length validation and cannot
fail — it is a total function on byte lists.  For every 32-byte input it
succeeds with every mapped field defined; for shorter inputs it silently
returns a configuration whose missing-byte-derived fields are NaN/undefined
(see the counterexample), rather than surfacing an `InvalidDigestLength`
error. -/
theorem mapHashToConfig_total_on_32 (d : List ℕ) (hlen : d.length = 32)
    (hb : ∀ b ∈ d, b < 256) :
    (mapHashToConfig d).primaryHue.isSome = true ∧
    (mapHashToConfig d).primarySaturation.isSome = true ∧
    (mapHashToConfig d).primaryLightness.isSome = true ∧
    (mapHashToConfig d).secondaryHue.isSome = true ∧
    (mapHashToConfig d).secondaryLightness.isSome = true ∧
    (mapHashToConfig d).geometryClass.isSome = true ∧
    (mapHashToConfig d).patternType.isSome = true ∧
    (mapHashToConfig d).patternFrequency.isSome = true ∧
    (mapHashToConfig d).patternDensity.isSome = true ∧
    (mapHashToConfig d).borderStyle.isSome = true ∧
    (mapHashToConfig d).borderWidth.isSome = true ∧
    (mapHashToConfig d).rotationSpeed.isSome = true ∧
    (mapHashToConfig d).rotationAxis.isSome = true ∧
    (mapHashToConfig d).particleDensity.isSome = true ∧
    (mapHashToConfig d).displacementAmplitude.isSome = true ∧
    (mapHashToConfig d).displacementFrequency.isSome = true ∧
    (mapHashToConfig d).pulseRate.isSome = true ∧
    (mapHashToConfig d).shimmerIntensity.isSome = true ∧
    (mapHashToConfig d).colorShift.isSome = true ∧
    (mapHashToConfig d).breatheScale.isSome = true := by
  obtain ⟨b0, h0, hb0⟩ := get?_some_of_lt d hb (i := 0) (by omega)
  obtain ⟨b1, h1, hb1⟩ := get?_some_of_lt d hb (i := 1) (by omega)
  obtain ⟨b2, h2, hb2⟩ := get?_some_of_lt d hb (i := 2) (by omega)
  obtain ⟨b3, h3, hb3⟩ := get?_some_of_lt d hb (i := 3) (by omega)
  obtain ⟨b4, h4, hb4⟩ := get?_some_of_lt d hb (i := 4) (by omega)
  obtain ⟨b6, h6, hb6⟩ := get?_some_of_lt d hb (i := 6) (by omega)
  obtain ⟨b8, h8, hb8⟩ := get?_some_of_lt d hb (i := 8) (by omega)
  obtain ⟨b10, h10, hb10⟩ := get?_some_of_lt d hb (i := 10) (by omega)
  obtain ⟨b11, h11, hb11⟩ := get?_some_of_lt d hb (i := 11) (by omega)
  obtain ⟨b12, h12, hb12⟩ := get?_some_of_lt d hb (i := 12) (by omega)
  obtain ⟨b13, h13, hb13⟩ := get?_some_of_lt d hb (i := 13) (by omega)
  obtain ⟨b14, h14, hb14⟩ := get?_some_of_lt d hb (i := 14) (by omega)
  obtain ⟨b15, h15, hb15⟩ := get?_some_of_lt d hb (i := 15) (by omega)
  obtain ⟨b16, h16, hb16⟩ := get?_some_of_lt d hb (i := 16) (by omega)
  obtain ⟨b18, h18, hb18⟩ := get?_some_of_lt d hb (i := 18) (by omega)
  obtain ⟨b19, h19, hb19⟩ := get?_some_of_lt d hb (i := 19) (by omega)
  obtain ⟨b20, h20, hb20⟩ := get?_some_of_lt d hb (i := 20) (by omega)
  obtain ⟨b21, h21, hb21⟩ := get?_some_of_lt d hb (i := 21) (by omega)
  obtain ⟨b22, h22, hb22⟩ := get?_some_of_lt d hb (i := 22) (by omega)
  obtain ⟨b23, h23, hb23⟩ := get?_some_of_lt d hb (i := 23) (by omega)
  have hgC : (byteToIndex b6 GEOMETRY_CLASSES.length).toNat <
      GEOMETRY_CLASSES.length := by
    have ha := byteToIndex_lt GEOMETRY_CLASSES.length hb6 (by simp [GEOMETRY_CLASSES])
    have hc := byteToIndex_nonneg b6 GEOMETRY_CLASSES.length
    omega
  have hpT : (byteToIndex b8 PATTERN_TYPES.length).toNat <
      PATTERN_TYPES.length := by
    have ha := byteToIndex_lt PATTERN_TYPES.length hb8 (by simp [PATTERN_TYPES])
    have hc := byteToIndex_nonneg b8 PATTERN_TYPES.length
    omega
  have hbS : (byteToIndex b12 BORDER_STYLES.length).toNat <
      BORDER_STYLES.length := by
    have ha := byteToIndex_lt BORDER_STYLES.length hb12 (by simp [BORDER_STYLES])
    have hc := byteToIndex_nonneg b12 BORDER_STYLES.length
    omega
  simp only [mapHashToConfig, h0, h1, h2, h3, h4, h6, h8, h10, h11, h12, h13,
    h14, h15, h16, h18, h19, h20, h21, h22, h23, Option.map_some',
    Option.some_bind, Option.isSome_some, true_and, and_true]
  exact ⟨get?_isSome_of_lt _ hgC, get?_isSome_of_lt _ hpT,
    get?_isSome_of_lt _ hbS⟩

/-- Claim C1 witness: the amended theorem applied to the all-zero 32-byte digest;
first conjunct extracted. -/
theorem mapHashToConfig_total_on_32_witness :
    (mapHashToConfig (List.replicate 32 0)).primaryHue.isSome = true :=
  (mapHashToConfig_total_on_32 (List.replicate 32 0) (by simp)
    (by intro b hbm; simp_all [List.eq_of_mem_replicate hbm])).1

/-- Claim C2 (evidence of the code bug): the return object literal of
`mapHashToConfig` (src/lib/parameterMapper.ts:102-123) omits the
`reputationScore` property, even though the `VisualConfig` interface
(src/lib/types.ts:44) declares it as a required integer in [0,100] and both
renderers read `config.reputationScore`.  Reading the field on any mapper
output therefore yields `undefined` (`none`), never an integer in
[0,100]. -/
theorem mapHashToConfig_reputationScore_absent (d : List ℕ) :
    (mapHashToConfig d).reputationScore = none := rfl

/-- Claim C4 counterexample: a digest whose byte 0 is 255 yields
`primaryHue = 360`, which is outside the claimed half-open interval
[0, 360): `byteToFloat` is endpoint-inclusive, so the top byte value attains
360 exactly. -/
theorem primaryHue_attains_360 :
    (mapHashToConfig (255 :: List.replicate 31 0)).primaryHue = some 360 ∧
    ¬ ((360 : ℚ) < 360) := by
  constructor
  · show ((255 :: List.replicate 31 0 : List ℕ).get? 0).map
      (fun b => byteToFloat b 0 360) = some 360
    norm_num [byteToFloat]
  · norm_num

/-- Claim C4 amended: for a digest of in-range bytes the primary hue lies in the
closed interval [0, 360] (the right endpoint is attained at byte 255, so
[0,360) is amended to [0,360]); `byteToFloat` satisfies its contract
`min + (byte/255)·(max−min)` with endpoints inclusive at byte 0 and
byte 255. -/
theorem primaryHue_range (d : List ℕ) (hb : ∀ b ∈ d, b < 256) :
    (∀ q ∈ (mapHashToConfig d).primaryHue, 0 ≤ q ∧ q ≤ 360) ∧
    (∀ (b : ℕ) (mn mx : ℚ),
      byteToFloat b mn mx = mn + ((b : ℚ) / 255) * (mx - mn)) ∧
    (∀ mn mx : ℚ, byteToFloat 0 mn mx = mn ∧ byteToFloat 255 mn mx = mx) := by
  refine ⟨?_, fun _ _ _ => rfl,
    fun mn mx => ⟨by rw [byteToFloat]; norm_num, by rw [byteToFloat]; ring⟩⟩
  intro q hq
  have hpr : (mapHashToConfig d).primaryHue =
      (d.get? 0).map (fun b => byteToFloat b 0 360) := rfl
  rw [hpr, Option.mem_def, Option.map_eq_some'] at hq
  obtain ⟨b, hbeq, rfl⟩ := hq
  have hble : b ≤ 255 := by
    have := hb b (List.get?_mem hbeq)
    omega
  exact byteToFloat_mem_Icc hble (by norm_num)

/-- Claim C4 witness: the amended theorem applied to the all-zero 32-byte digest,
whose primary hue is 0. -/
theorem primaryHue_range_witness :
    0 ≤ (0 : ℚ) ∧ (0 : ℚ) ≤ 360 :=
  (primaryHue_range (List.replicate 32 0)
      (by intro b hbm; simp_all [List.eq_of_mem_replicate hbm])).1 0
    (by rw [Option.mem_def]
        show ((List.replicate 32 0 : List ℕ).get? 0).map
          (fun b => byteToFloat b 0 360) = some 0
        norm_num [byteToFloat])

/-- Claim C5: for every digest of in-range bytes, the circular hue distance
`|secondaryHue − primaryHue| mod 360` of the resulting configuration lies
in the offset band [60, 300] and is never 0: the secondary hue is the
primary hue plus an offset in [60, 300], reduced mod 360, so the wrapped
difference stays in the band. -/
theorem secondaryHue_separation (d : List ℕ) (hb : ∀ b ∈ d, b < 256) :
    ∀ p ∈ (mapHashToConfig d).primaryHue,
    ∀ s ∈ (mapHashToConfig d).secondaryHue,
      60 ≤ jsMod |s - p| 360 ∧ jsMod |s - p| 360 ≤ 300 ∧
      jsMod |s - p| 360 ≠ 0 := by
  intro p hp s hs
  have hpr : (mapHashToConfig d).primaryHue =
      (d.get? 0).map (fun b => byteToFloat b 0 360) := rfl
  have hsr : (mapHashToConfig d).secondaryHue =
      (match d.get? 0, d.get? 3 with
       | some b0, some b3 =>
           some (jsMod (byteToFloat b0 0 360 + byteToFloat b3 60 300) 360)
       | _, _ => none) := rfl
  rw [hpr, Option.mem_def, Option.map_eq_some'] at hp
  rw [hsr, Option.mem_def] at hs
  obtain ⟨b0, hg0, hp2⟩ := hp
  rw [hg0] at hs
  cases hg3 : d.get? 3 with
  | none => rw [hg3] at hs; simp at hs
  | some b3 =>
      rw [hg3] at hs
      have hp3 : p = byteToFloat b0 0 360 := hp2.symm
      have hs2 : s = jsMod (byteToFloat b0 0 360 + byteToFloat b3 60 300) 360 := by
        simpa using hs.symm
      subst hp3
      subst hs2
      have hble0 : b0 ≤ 255 := by have := hb _ (List.get?_mem hg0); omega
      have hble3 : b3 ≤ 255 := by have := hb _ (List.get?_mem hg3); omega
      obtain ⟨hP1, hP2⟩ := byteToFloat_mem_Icc hble0 (show (0:ℚ) ≤ 360 by norm_num)
      obtain ⟨hO1, hO2⟩ := byteToFloat_mem_Icc hble3 (show (60:ℚ) ≤ 300 by norm_num)
      set P := byteToFloat b0 0 360 with hPdef
      set O := byteToFloat b3 60 300 with hOdef
      set k := ⌊(P + O) / 360⌋ with hkdef
      have hk0 : 0 ≤ k := Int.floor_nonneg.mpr (by positivity)
      have hk1 : k ≤ 1 := by
        have hlt : (P + O) / 360 < ((2 : ℤ) : ℚ) := by
          rw [div_lt_iff₀ (by norm_num : (0:ℚ) < 360)]
          push_cast
          linarith
        have h2 : ⌊(P + O) / 360⌋ < (2 : ℤ) := Int.floor_lt.mpr hlt
        omega
      have hsp : jsMod (P + O) 360 - P = O - 360 * (k : ℚ) := by
        rw [jsMod, hkdef]
        ring
      rcases (by omega : k = 0 ∨ k = 1) with hk | hk
      · rw [hk] at hsp
        push_cast at hsp
        rw [hsp]
        rw [show O - 360 * 0 = O by ring, abs_of_nonneg (by linarith),
          jsMod_eq_self (by linarith) (by linarith)]
        exact ⟨hO1, hO2, by positivity⟩
      · rw [hk] at hsp
        push_cast at hsp
        rw [hsp, abs_of_nonpos (by linarith),
          jsMod_eq_self (by linarith) (by linarith)]
        refine ⟨by linarith, by linarith, ?_⟩
        have : 0 < -(O - 360 * 1) := by linarith
        exact ne_of_gt this

/-- Claim C5 witness: for the all-zero digest, primary hue 0 and secondary hue 60
are 60 degrees apart, inside the band. -/
theorem secondaryHue_separation_witness :
    60 ≤ jsMod |(60 : ℚ) - 0| 360 ∧ jsMod |(60 : ℚ) - 0| 360 ≤ 300 ∧
    jsMod |(60 : ℚ) - 0| 360 ≠ 0 :=
  secondaryHue_separation (List.replicate 32 0)
    (by intro b hbm; simp_all [List.eq_of_mem_replicate hbm])
    0
    (by rw [Option.mem_def]
        show ((List.replicate 32 0 : List ℕ).get? 0).map
          (fun b => byteToFloat b 0 360) = some 0
        norm_num [byteToFloat])
    60
    (by rw [Option.mem_def]
        show some (jsMod (byteToFloat 0 0 360 + byteToFloat 0 60 300) 360) =
          some 60
        have h1 : byteToFloat 0 0 360 + byteToFloat 0 60 300 = 60 := by
          norm_num [byteToFloat]
        rw [h1, jsMod_eq_self (by norm_num) (by norm_num)])

/-- Claim C7 counterexample: the fixed center cell (4,4) lies outside the corner
region yet is rendered as a bright accent cell unconditionally — here with
seeds for which `cellHash 4 4 s1 s2 = 0 ≤ 0.95` — refuting "rendered as a
bright accent cell exactly when cellHash(cx, cy, seed1, seed2) > 0.95". -/
theorem center_cell_accent_below_threshold :
    (mainCellRender 4 4 (-(1130/31 : ℝ)) (-(1590/47 : ℝ)) 0).isAccent = true ∧
    ¬ (cellHash ((4:ℕ) : ℝ) ((4:ℕ) : ℝ) (-(1130/31 : ℝ)) (-(1590/47 : ℝ)) > 0.95) ∧
    ¬ ((4 : ℕ) < 3 ∧ (4 : ℕ) < 3) := by
  refine ⟨?_, ?_, by norm_num⟩
  · rw [mainCellRender, if_neg (by norm_num), if_pos (by norm_num)]
    rfl
  · have harg : (((4:ℕ) : ℝ) + (-(1130/31 : ℝ)) * 0.31 + 7.3) * 211.7 +
        (((4:ℕ) : ℝ) + (-(1590/47 : ℝ)) * 0.47 + 11.9) * 391.1 = 0 := by
      norm_num
    have hzero : cellHash ((4:ℕ) : ℝ) ((4:ℕ) : ℝ)
        (-(1130/31 : ℝ)) (-(1590/47 : ℝ)) = 0 := by
      rw [cellHash, harg, Real.sin_zero, zero_mul, fract_eq_int_fract,
        Int.fract_zero]
    rw [hzero]
    norm_num

/-- Claim C7 amended: in the main grid loop, outside the corner region and apart
from the fixed center cell (4,4) — which is always a bright accent with
opacity 0.93 — a cell is rendered as a bright accent exactly when
`cellHash cx cy s1 s2 > 0.95`, its opacity driven by a second hash call at
offset (+43.1, +67.9) and its animation delay by a third at
(+89.7, +71.3). -/
theorem accent_cell_rule (cx cy : ℕ) (s1 s2 pf : ℝ)
    (hcorner : ¬ (cx < 3 ∧ cy < 3)) :
    (¬ (cx = 4 ∧ cy = 4) →
      (((mainCellRender cx cy s1 s2 pf).isAccent = true) ↔
        cellHash cx cy s1 s2 > 0.95) ∧
      (cellHash cx cy s1 s2 > 0.95 →
        mainCellRender cx cy s1 s2 pf =
          CellRender.accent
            (0.35 + cellHash ((cx : ℝ) + 43.1) ((cy : ℝ) + 67.9) s1 s2 * 0.65)
            (cellHash ((cx : ℝ) + 89.7) ((cy : ℝ) + 71.3) s1 s2 * 2))) ∧
    (cx = 4 ∧ cy = 4 →
      mainCellRender cx cy s1 s2 pf =
        CellRender.accent 0.93
          (cellHash ((cx : ℝ) + 89.7) ((cy : ℝ) + 71.3) s1 s2 * 2)) := by
  constructor
  · intro hcenter
    rw [mainCellRender, if_neg hcorner, if_neg hcenter]
    constructor
    · by_cases hh : cellHash cx cy s1 s2 > 0.95
      · rw [if_pos hh]
        simp [CellRender.isAccent, hh]
      · rw [if_neg hh]
        simp [CellRender.isAccent, hh]
    · intro hh
      rw [if_pos hh]
  · intro hcenter
    rw [mainCellRender, if_neg hcorner, if_pos hcenter]

/-- Claim C7 witness: the amended accent rule instantiated at cell (5,5) with
zero seeds. -/
theorem accent_cell_rule_witness :
    ((mainCellRender 5 5 0 0 0).isAccent = true) ↔
      cellHash ((5:ℕ) : ℝ) ((5:ℕ) : ℝ) 0 0 > 0.95 :=
  ((accent_cell_rule 5 5 0 0 0 (by norm_num)).1 (by norm_num)).1

/-- Claim C8: reserved digest bytes 24–31 do not influence the output — any two
digests agreeing on bytes 0–23 map to identical configurations (extra bytes
are ignored, not rejected) — and each axis depends only on its documented
byte range: agreement on just that range forces agreement of the axis. -/
theorem config_ignores_reserved_bytes (d1 d2 : List ℕ) :
    ((∀ i, i < 24 → d1.get? i = d2.get? i) →
      mapHashToConfig d1 = mapHashToConfig d2) ∧
    (d1.get? 0 = d2.get? 0 →
      (mapHashToConfig d1).primaryHue = (mapHashToConfig d2).primaryHue) ∧
    (d1.get? 1 = d2.get? 1 →
      (mapHashToConfig d1).primarySaturation =
        (mapHashToConfig d2).primarySaturation) ∧
    (d1.get? 2 = d2.get? 2 →
      (mapHashToConfig d1).primaryLightness =
        (mapHashToConfig d2).primaryLightness) ∧
    (d1.get? 0 = d2.get? 0 → d1.get? 3 = d2.get? 3 →
      (mapHashToConfig d1).secondaryHue = (mapHashToConfig d2).secondaryHue) ∧
    (d1.get? 4 = d2.get? 4 →
      (mapHashToConfig d1).secondaryLightness =
        (mapHashToConfig d2).secondaryLightness) ∧
    (d1.get? 6 = d2.get? 6 →
      (mapHashToConfig d1).geometryClass = (mapHashToConfig d2).geometryClass) ∧
    (d1.get? 8 = d2.get? 8 →
      (mapHashToConfig d1).patternType = (mapHashToConfig d2).patternType) ∧
    (d1.get? 10 = d2.get? 10 →
      (mapHashToConfig d1).patternFrequency =
        (mapHashToConfig d2).patternFrequency) ∧
    (d1.get? 11 = d2.get? 11 →
      (mapHashToConfig d1).patternDensity =
        (mapHashToConfig d2).patternDensity) ∧
    (d1.get? 12 = d2.get? 12 →
      (mapHashToConfig d1).borderStyle = (mapHashToConfig d2).borderStyle) ∧
    (d1.get? 13 = d2.get? 13 →
      (mapHashToConfig d1).borderWidth = (mapHashToConfig d2).borderWidth) ∧
    (d1.get? 14 = d2.get? 14 → d1.get? 15 = d2.get? 15 →
      (mapHashToConfig d1).rotationSpeed =
        (mapHashToConfig d2).rotationSpeed) ∧
    (d1.get? 15 = d2.get? 15 →
      (mapHashToConfig d1).rotationAxis = (mapHashToConfig d2).rotationAxis) ∧
    (d1.get? 16 = d2.get? 16 →
      (mapHashToConfig d1).particleDensity =
        (mapHashToConfig d2).particleDensity) ∧
    (d1.get? 18 = d2.get? 18 →
      (mapHashToConfig d1).displacementAmplitude =
        (mapHashToConfig d2).displacementAmplitude) ∧
    (d1.get? 19 = d2.get? 19 →
      (mapHashToConfig d1).displacementFrequency =
        (mapHashToConfig d2).displacementFrequency) ∧
    (d1.get? 20 = d2.get? 20 →
      (mapHashToConfig d1).pulseRate = (mapHashToConfig d2).pulseRate) ∧
    (d1.get? 21 = d2.get? 21 →
      (mapHashToConfig d1).shimmerIntensity =
        (mapHashToConfig d2).shimmerIntensity) ∧
    (d1.get? 22 = d2.get? 22 →
      (mapHashToConfig d1).colorShift = (mapHashToConfig d2).colorShift) ∧
    (d1.get? 23 = d2.get? 23 →
      (mapHashToConfig d1).breatheScale = (mapHashToConfig d2).breatheScale) := by
  refine ⟨?_, ?_, ?_, ?_, ?_, ?_, ?_, ?_, ?_, ?_, ?_, ?_, ?_, ?_, ?_, ?_,
    ?_, ?_, ?_, ?_, ?_⟩
  · intro h
    simp only [mapHashToConfig]
    rw [h 0 (by omega), h 1 (by omega), h 2 (by omega), h 3 (by omega),
      h 4 (by omega), h 6 (by omega), h 8 (by omega), h 10 (by omega),
      h 11 (by omega), h 12 (by omega), h 13 (by omega), h 14 (by omega),
      h 15 (by omega), h 16 (by omega), h 18 (by omega), h 19 (by omega),
      h 20 (by omega), h 21 (by omega), h 22 (by omega), h 23 (by omega)]
  · intro h
    show (d1.get? 0).map (fun b => byteToFloat b 0 360) =
      (d2.get? 0).map (fun b => byteToFloat b 0 360)
    rw [h]
  · intro h
    show (d1.get? 1).map (fun b => byteToFloat b 0.5 1.0) =
      (d2.get? 1).map (fun b => byteToFloat b 0.5 1.0)
    rw [h]
  · intro h
    show (d1.get? 2).map (fun b => byteToFloat b 0.35 0.65) =
      (d2.get? 2).map (fun b => byteToFloat b 0.35 0.65)
    rw [h]
  · intro h0 h3
    show (mapHashToConfig d1).secondaryHue = (mapHashToConfig d2).secondaryHue
    simp only [mapHashToConfig]
    rw [h0, h3]
  · intro h
    show (d1.get? 4).map (fun b => byteToFloat b 0.3 0.7) =
      (d2.get? 4).map (fun b => byteToFloat b 0.3 0.7)
    rw [h]
  · intro h
    simp only [mapHashToConfig]
    rw [h]
  · intro h
    simp only [mapHashToConfig]
    rw [h]
  · intro h
    show (d1.get? 10).map (fun b => round (byteToFloat b 1 16)) =
      (d2.get? 10).map (fun b => round (byteToFloat b 1 16))
    rw [h]
  · intro h
    show (d1.get? 11).map (fun b => byteToFloat b 0.1 1.0) =
      (d2.get? 11).map (fun b => byteToFloat b 0.1 1.0)
    rw [h]
  · intro h
    simp only [mapHashToConfig]
    rw [h]
  · intro h
    show (d1.get? 13).map (fun b => byteToFloat b 0.01 0.08) =
      (d2.get? 13).map (fun b => byteToFloat b 0.01 0.08)
    rw [h]
  · intro h14 h15
    simp only [mapHashToConfig]
    rw [h14, h15]
  · intro h
    simp only [mapHashToConfig]
    rw [h]
  · intro h
    show (d1.get? 16).map (fun b => byteToFloat b 0 1) =
      (d2.get? 16).map (fun b => byteToFloat b 0 1)
    rw [h]
  · intro h
    show (d1.get? 18).map (fun b => byteToFloat b 0 0.4) =
      (d2.get? 18).map (fun b => byteToFloat b 0 0.4)
    rw [h]
  · intro h
    show (d1.get? 19).map (fun b => round (byteToFloat b 1 8)) =
      (d2.get? 19).map (fun b => round (byteToFloat b 1 8))
    rw [h]
  · intro h
    show (d1.get? 20).map (fun b => byteToFloat b 0.2 2.0) =
      (d2.get? 20).map (fun b => byteToFloat b 0.2 2.0)
    rw [h]
  · intro h
    show (d1.get? 21).map (fun b => byteToFloat b 0 0.6) =
      (d2.get? 21).map (fun b => byteToFloat b 0 0.6)
    rw [h]
  · intro h
    show (d1.get? 22).map (fun b => byteToFloat b 0 0.3) =
      (d2.get? 22).map (fun b => byteToFloat b 0 0.3)
    rw [h]
  · intro h
    show (d1.get? 23).map (fun b => byteToFloat b 0 0.15) =
      (d2.get? 23).map (fun b => byteToFloat b 0 0.15)
    rw [h]

/-- Claim C8 witness: two concrete 32-byte digests agreeing on bytes 0–23 and
differing on all reserved bytes 24–31 map to the same configuration. -/
theorem config_ignores_reserved_bytes_witness :
    mapHashToConfig (List.replicate 24 1 ++ List.replicate 8 7) =
      mapHashToConfig (List.replicate 24 1 ++ List.replicate 8 9) :=
  (config_ignores_reserved_bytes _ _).1 (by decide)

/-- Claim C9: the settled state of the fingerprint pipeline is absent (`none`) —
not an error — exactly when the trimmed input is empty, and for every other
input it is the configuration mapped from the digest of the input. -/
theorem useFingerprint_empty_behavior (digest : String → List ℕ)
    (input : String) :
    (jsTrim input = "" → useFingerprintResult digest input = none) ∧
    (jsTrim input ≠ "" →
      useFingerprintResult digest input =
        some (mapHashToConfig (digest input))) := by
  constructor
  · intro h
    rw [useFingerprintResult, if_pos h]
  · intro h
    rw [useFingerprintResult, if_neg h]

/-- Claim C9 witness: with a stub digest, the whitespace-only input `"  "` yields
no configuration and `"hello world"` yields the mapped configuration. -/
theorem useFingerprint_empty_behavior_witness :
    useFingerprintResult (fun _ => List.replicate 32 0) "  " = none ∧
    useFingerprintResult (fun _ => List.replicate 32 0) "hello world" =
      some (mapHashToConfig (List.replicate 32 0)) :=
  ⟨(useFingerprint_empty_behavior (fun _ => List.replicate 32 0) "  ").1
      (by decide),
   (useFingerprint_empty_behavior (fun _ => List.replicate 32 0)
      "hello world").2 (by decide)⟩

lemma hookState_config_stays {α : Type} (r : ℕ → α) (n : ℕ) :
    ∀ (t : List FPEvent) (st : HookState α), st.latest = some n →
      (∀ e ∈ t, e.isStart = false) → st.config = some (r n) →
      (t.foldl (hookStep r) st).config = some (r n) := by
  intro t
  induction t with
  | nil => intro st _ _ h3; exact h3
  | cons e rest ih =>
    intro st h1 h2 h3
    cases e with
    | start i =>
        have := h2 _ (List.mem_cons_self _ _)
        simp [FPEvent.isStart] at this
    | complete i =>
        rw [List.foldl_cons]
        by_cases hi : st.latest = some i
        · have hin : i = n := by
            rw [h1] at hi
            injection hi with hh
            omega
          subst hin
          have hst : hookStep r st (.complete i) =
              { latest := st.latest, config := some (r i) } := by
            simp only [hookStep]
            rw [if_pos hi]
          rw [hst]
          exact ih _ h1 (fun e he => h2 e (List.mem_cons_of_mem _ he)) rfl
        · have hst : hookStep r st (.complete i) = st := by
            simp only [hookStep]
            rw [if_neg hi]
          rw [hst]
          exact ih st h1 (fun e he => h2 e (List.mem_cons_of_mem _ he)) h3

lemma hookState_commits {α : Type} (r : ℕ → α) (n : ℕ) :
    ∀ (t : List FPEvent) (st : HookState α), st.latest = some n →
      (∀ e ∈ t, e.isStart = false) → FPEvent.complete n ∈ t →
      (t.foldl (hookStep r) st).config = some (r n) := by
  intro t
  induction t with
  | nil => intro st _ _ hmem; cases hmem
  | cons e rest ih =>
    intro st h1 h2 hmem
    cases e with
    | start i =>
        have := h2 _ (List.mem_cons_self _ _)
        simp [FPEvent.isStart] at this
    | complete i =>
        rw [List.foldl_cons]
        by_cases hi : st.latest = some i
        · have hin : i = n := by
            rw [h1] at hi
            injection hi with hh
            omega
          subst hin
          have hst : hookStep r st (.complete i) =
              { latest := st.latest, config := some (r i) } := by
            simp only [hookStep]
            rw [if_pos hi]
          rw [hst]
          exact hookState_config_stays r i rest _ h1
            (fun e he => h2 e (List.mem_cons_of_mem _ he)) rfl
        · have hne : FPEvent.complete n ∈ rest := by
            rcases List.mem_cons.mp hmem with heq | hrest
            · exfalso
              have hin : i = n := by simpa using heq.symm
              subst hin
              exact hi h1
            · exact hrest
          have hst : hookStep r st (.complete i) = st := by
            simp only [hookStep]
            rw [if_neg hi]
          rw [hst]
          exact ih st h1 (fun e he => h2 e (List.mem_cons_of_mem _ he)) hne

/-- Claim C10: last-input-wins.  For any hook execution whose final effect run is
for input `n` (events after `start n` contain no further start), once the
digest for input `n` resolves, the committed configuration is the one
derived from input `n` — stale completions in the remainder of the trace,
in any order, are discarded by their closures' `cancelled` flag and never
overwrite it. -/
theorem last_input_wins (digest : String → List ℕ) (inputs : ℕ → String)
    (t1 t2 : List FPEvent) (n : ℕ)
    (hnostart : ∀ e ∈ t2, e.isStart = false)
    (hcomplete : FPEvent.complete n ∈ t2) :
    (runTrace (fun i => mapHashToConfig (digest (inputs i)))
        (t1 ++ FPEvent.start n :: t2)).config =
      some (mapHashToConfig (digest (inputs n))) := by
  rw [runTrace, List.foldl_append, List.foldl_cons]
  exact hookState_commits _ n t2 _ rfl hnostart hcomplete

/-- Claim C10 witness: the classic race — input 0 starts, input 1 supersedes it,
input 1's digest resolves, then input 0's stale digest resolves last; the
final configuration is input 1's. -/
theorem last_input_wins_witness :
    (runTrace
        (fun i => mapHashToConfig ((fun _ : String => List.replicate 32 0)
          ((fun _ : ℕ => "x") i)))
        ([FPEvent.start 0] ++ FPEvent.start 1 ::
          [FPEvent.complete 1, FPEvent.complete 0])).config =
      some (mapHashToConfig ((fun _ : String => List.replicate 32 0)
        ((fun _ : ℕ => "x") 1))) :=
  last_input_wins (fun _ => List.replicate 32 0) (fun _ => "x")
    [FPEvent.start 0] [FPEvent.complete 1, FPEvent.complete 0] 1
    (by decide) (by decide)

end Fingerprint
